import Mathlib

/-!
Verification development for the tool-dispatch relay of
`src/agents/3_openai_tool_calling.py` and the schema validation of
`src/agents/2_pydantic_ai_validation.py`.

The Python handlers are embedded as pure Lean functions over a JSON-like
value type.  Python's numbers (int and float) are both modelled as exact
rationals (`Rat`); the literals in the source are exact decimals, and no
property proved below depends on the int/float distinction or on binary
floating-point rounding.  Python's builtin `eval`, reachable only on
strings over the allow-list `0123456789+-*/(). `, is modelled by a
recursive-descent evaluator over `+`, `-`, `*`, `/`, parentheses and
numeric literals returning `Except` (an `.error` models a raised
exception such as `ZeroDivisionError`); the properties proved about
`calculate` depend only on the evaluator being fallible, not on the
numeric value it produces.

The remote completion service (`client.chat.completions.create`) is an
external collaborator; it is modelled as an oracle `CompletionService`
supplied to the relay: a function from the submitted conversation and a
flag (whether the tool catalog is attached) to the returned assistant
message.  `run_conversation` then becomes a deterministic function of the
oracle, recording a trace: the completion requests it issued, the final
conversation state, the handler invocations it performed, and its outcome
(final answer, or the error that aborted the query).  The JSON
(de)serialization of a tool call's arguments string is performed by an
external library in the source; a payload is modelled as either the
decoded argument list or `malformed` (deserialization raises).
-/

namespace Agents

/-- JSON-like values returned by the tool handlers.  Numbers are exact
rationals standing for Python's int/float literals. -/
inductive JValue where
  | str (s : String)
  | num (q : Rat)
  | arr (elems : List JValue)
  | obj (fields : List (String × JValue))

/-- Field projection out of a JSON object (first field with the given name). -/
def jfield (name : String) (v : JValue) : Option JValue :=
  match v with
  | .obj fs => (fs.find? (fun p => p.1 == name)).map (fun p => p.2)
  | _ => none

/-- Extract a string payload, defaulting to the empty string. -/
def jstr : JValue → String
  | .str s => s
  | _ => ""

/-- One row of the simulated weather table. -/
structure WeatherEntry where
  temp : Rat
  condition : String
  humidity : Rat

/-- The `weather_data` dictionary of `get_weather` (keys are lowercase). -/
def weather_data : List (String × WeatherEntry) :=
  [("london", ⟨15, "Cloudy", 65⟩),
   ("new york", ⟨22, "Sunny", 45⟩),
   ("tokyo", ⟨18, "Rainy", 80⟩),
   ("paris", ⟨17, "Partly Cloudy", 55⟩),
   ("sydney", ⟨25, "Sunny", 50⟩)]

/-- `weather_data.get(location_lower, default)` with the source's default row. -/
def weatherLookup (location_lower : String) : WeatherEntry :=
  ((weather_data.find? (fun p => p.1 == location_lower)).map (fun p => p.2)).getD
    ⟨20, "Unknown", 50⟩

/-- Python's `str.lower()`: character-wise lowercasing (ASCII-exact on the
inputs exercised here). -/
def pyLower (s : String) : String := String.mk (s.toList.map Char.toLower)

/-- Python's `str.upper()`: character-wise uppercasing. -/
def pyUpper (s : String) : String := String.mk (s.toList.map Char.toUpper)

/-- Embeds `get_weather(location, unit="celsius")`: looks up the lowercased
location, defaulting when absent, and echoes `location` and `unit` verbatim
into the returned record. -/
def get_weather (location : String) (unit : String) : JValue :=
  let location_lower := pyLower location
  let data := weatherLookup location_lower
  .obj [("location", .str location),
        ("temperature", .num data.temp),
        ("unit", .str unit),
        ("condition", .str data.condition),
        ("humidity", .num data.humidity)]

/-- The character allow-list of `calculate`. -/
def allowed_chars : List Char := "0123456789+-*/(). ".toList

/-- Drop leading spaces (the only whitespace admitted by the allow-list). -/
def skipSpaces : List Char → List Char
  | ' ' :: rest => skipSpaces rest
  | cs => cs

/-- Decimal digits to a natural number. -/
def digitsToNat (ds : List Char) : Nat :=
  ds.foldl (fun a c => 10 * a + (c.toNat - 48)) 0

/-- Parse a numeric literal: digits with an optional fractional part
(`12`, `3.5`, `.5`, `5.` are all accepted, as by Python). -/
def parseNumber (cs : List Char) : Except String (Rat × List Char) :=
  let (intPart, rest) := cs.span Char.isDigit
  match rest with
  | '.' :: rest2 =>
    let (fracPart, rest3) := rest2.span Char.isDigit
    if intPart.isEmpty && fracPart.isEmpty then .error "invalid syntax"
    else .ok ((digitsToNat intPart : Rat) +
              (digitsToNat fracPart : Rat) / ((10 : Rat) ^ fracPart.length), rest3)
  | _ =>
    if intPart.isEmpty then .error "invalid syntax"
    else .ok ((digitsToNat intPart : Rat), rest)

/-- Atom: a parenthesised expression (via the supplied expression parser)
or a numeric literal. -/
def parseAtom (pe : List Char → Except String (Rat × List Char))
    (cs : List Char) : Except String (Rat × List Char) :=
  match skipSpaces cs with
  | '(' :: rest => do
    let p ← pe rest
    match skipSpaces p.2 with
    | ')' :: rest2 => .ok (p.1, rest2)
    | _ => .error "invalid syntax"
  | cs' => parseNumber cs'

/-- Factor: a chain of unary signs applied to an atom. -/
def parseFactor (pe : List Char → Except String (Rat × List Char)) :
    Nat → List Char → Except String (Rat × List Char)
  | 0, _ => .error "invalid syntax"
  | fuel + 1, cs =>
    match skipSpaces cs with
    | '-' :: rest => (parseFactor pe fuel rest).map (fun p => (-p.1, p.2))
    | '+' :: rest => parseFactor pe fuel rest
    | cs' => parseAtom pe cs'

/-- Left-associative chain of `*` and `/` over factors; division by zero
is the raised-exception case (`ZeroDivisionError: division by zero`). -/
def parseTermLoop (pe : List Char → Except String (Rat × List Char)) :
    Nat → Rat → List Char → Except String (Rat × List Char)
  | 0, _, _ => .error "invalid syntax"
  | fuel + 1, acc, cs =>
    match skipSpaces cs with
    | '*' :: rest => do
      let p ← parseFactor pe fuel rest
      parseTermLoop pe fuel (acc * p.1) p.2
    | '/' :: rest => do
      let p ← parseFactor pe fuel rest
      if p.1 = 0 then .error "division by zero"
      else parseTermLoop pe fuel (acc / p.1) p.2
    | _ => .ok (acc, cs)

/-- Term: a factor followed by a multiplicative chain. -/
def parseTerm (pe : List Char → Except String (Rat × List Char))
    (fuel : Nat) (cs : List Char) : Except String (Rat × List Char) := do
  let p ← parseFactor pe fuel cs
  parseTermLoop pe fuel p.1 p.2

/-- Left-associative chain of `+` and `-` over terms. -/
def parseExprLoop (pe : List Char → Except String (Rat × List Char)) :
    Nat → Rat → List Char → Except String (Rat × List Char)
  | 0, _, _ => .error "invalid syntax"
  | fuel + 1, acc, cs =>
    match skipSpaces cs with
    | '+' :: rest => do
      let p ← parseTerm pe fuel rest
      parseExprLoop pe fuel (acc + p.1) p.2
    | '-' :: rest => do
      let p ← parseTerm pe fuel rest
      parseExprLoop pe fuel (acc - p.1) p.2
    | _ => .ok (acc, cs)

/-- Expression: a term followed by an additive chain.  Fuel bounds the
recursion; the top level supplies more fuel than the input length. -/
def parseExpr : Nat → List Char → Except String (Rat × List Char)
  | 0, _ => .error "invalid syntax"
  | fuel + 1, cs => do
    let p ← parseTerm (parseExpr fuel) fuel cs
    parseExprLoop (parseExpr fuel) fuel p.1 p.2

/-- Model of Python `eval` restricted to the allow-listed arithmetic
expressions: `.ok` is a computed value, `.error` a raised exception's
message. -/
def pyEval (s : String) : Except String Rat := do
  let cs := s.toList
  let p ← parseExpr (cs.length + 1) cs
  match skipSpaces p.2 with
  | [] => .ok p.1
  | _ => .error "invalid syntax"

/-- Embeds `calculate(expression)`: reject any character outside the
allow-list without evaluating; otherwise evaluate inside the `try` block,
turning a raised exception into an error record. -/
def calculate (expression : String) : JValue :=
  if expression.toList.all (fun c => allowed_chars.contains c) then
    match pyEval expression with
    | .ok result => .obj [("expression", .str expression), ("result", .num result)]
    | .error e => .obj [("error", .str e)]
  else
    .obj [("error", .str "Invalid characters in expression")]

/-- One row of the simulated stock table. -/
structure StockEntry where
  price : Rat
  change : Rat
  change_percent : Rat

/-- The `stock_data` dictionary of `get_stock_price` (keys are uppercase). -/
def stock_data : List (String × StockEntry) :=
  [("AAPL", ⟨178.50, 2.30, 1.31⟩),
   ("GOOGL", ⟨142.80, -1.20, -0.83⟩),
   ("MSFT", ⟨415.30, 5.40, 1.32⟩),
   ("TSLA", ⟨242.80, 8.60, 3.67⟩),
   ("AMZN", ⟨178.25, -0.50, -0.28⟩)]

/-- `stock_data.get(symbol_upper, default)` with the source's default row. -/
def stockLookup (symbol_upper : String) : StockEntry :=
  ((stock_data.find? (fun p => p.1 == symbol_upper)).map (fun p => p.2)).getD
    ⟨0, 0, 0⟩

/-- The record `get_stock_price` builds from the uppercased symbol: every
field, including `symbol`, depends only on `symbol_upper`. -/
def stockRecord (symbol_upper : String) : JValue :=
  let data := stockLookup symbol_upper
  .obj [("symbol", .str symbol_upper),
        ("price", .num data.price),
        ("change", .num data.change),
        ("change_percent", .num data.change_percent)]

/-- Embeds `get_stock_price(symbol)`: uppercase the symbol once and build
the record from it alone. -/
def get_stock_price (symbol : String) : JValue :=
  stockRecord (pyUpper symbol)

/-- Embeds `send_email(to, subject, body)` (simulated dispatch). -/
def send_email («to» : String) (subject : String) (body : String) : JValue :=
  .obj [("status", .str "success"),
        ("message", .str ("Email sent to " ++ «to»)),
        ("to", .str «to»),
        ("subject", .str subject),
        ("body_preview", .str (if body.length > 50 then body.take 50 ++ "..." else body))]

/-- The simulated database of `search_database`, keyed by table name. -/
def db_results (table : String) : List JValue :=
  if table == "users" then
    [.obj [("id", .num 1), ("name", .str "Alice Johnson"), ("email", .str "alice@example.com")],
     .obj [("id", .num 2), ("name", .str "Bob Smith"), ("email", .str "bob@example.com")],
     .obj [("id", .num 3), ("name", .str "Charlie Brown"), ("email", .str "charlie@example.com")]]
  else if table == "products" then
    [.obj [("id", .num 101), ("name", .str "Laptop"), ("price", .num 999)],
     .obj [("id", .num 102), ("name", .str "Mouse"), ("price", .num 29)],
     .obj [("id", .num 103), ("name", .str "Keyboard"), ("price", .num 79)]]
  else if table == "orders" then
    [.obj [("id", .num 501), ("customer", .str "Alice"), ("total", .num 1107)],
     .obj [("id", .num 502), ("customer", .str "Bob"), ("total", .num 79)]]
  else []

/-- Embeds `search_database(query, table="users")`. -/
def search_database (query : String) (table : String) : JValue :=
  let table_data := db_results table
  .obj [("table", .str table),
        ("query", .str query),
        ("results", .arr table_data),
        ("count", .num table_data.length)]

/-- Decoded keyword arguments of a tool call.  All parameters declared by
the tool schemas are strings. -/
abbrev ToolArgs := List (String × String)

/-- A registered tool handler as seen by the dispatch loop: keyword
arguments to either a result value or a raised exception's message. -/
abbrev Handler := ToolArgs → Except String JValue

/-- Look up a keyword argument by name. -/
def lookupArg (args : ToolArgs) (name : String) : Option String :=
  (args.find? (fun p => p.1 == name)).map (fun p => p.2)

/-- Keyword binding for `get_weather(location, unit="celsius")`: Python's
`fn(**args)` raises `TypeError` on an unexpected or missing keyword. -/
def weatherHandler : Handler := fun args =>
  if args.all (fun p => p.1 == "location" || p.1 == "unit") then
    match lookupArg args "location" with
    | some loc => .ok (get_weather loc ((lookupArg args "unit").getD "celsius"))
    | none => .error "TypeError: get_weather() missing required argument: location"
  else .error "TypeError: get_weather() got an unexpected keyword argument"

/-- Keyword binding for `calculate(expression)`. -/
def calculateHandler : Handler := fun args =>
  if args.all (fun p => p.1 == "expression") then
    match lookupArg args "expression" with
    | some e => .ok (calculate e)
    | none => .error "TypeError: calculate() missing required argument: expression"
  else .error "TypeError: calculate() got an unexpected keyword argument"

/-- Keyword binding for `get_stock_price(symbol)`. -/
def stockHandler : Handler := fun args =>
  if args.all (fun p => p.1 == "symbol") then
    match lookupArg args "symbol" with
    | some s => .ok (get_stock_price s)
    | none => .error "TypeError: get_stock_price() missing required argument: symbol"
  else .error "TypeError: get_stock_price() got an unexpected keyword argument"

/-- Keyword binding for `send_email(to, subject, body)`. -/
def emailHandler : Handler := fun args =>
  if args.all (fun p => p.1 == "to" || p.1 == "subject" || p.1 == "body") then
    match lookupArg args "to", lookupArg args "subject", lookupArg args "body" with
    | some t, some s, some b => .ok (send_email t s b)
    | _, _, _ => .error "TypeError: send_email() missing required argument"
  else .error "TypeError: send_email() got an unexpected keyword argument"

/-- Keyword binding for `search_database(query, table="users")`. -/
def searchHandler : Handler := fun args =>
  if args.all (fun p => p.1 == "query" || p.1 == "table") then
    match lookupArg args "query" with
    | some q => .ok (search_database q ((lookupArg args "table").getD "users"))
    | none => .error "TypeError: search_database() missing required argument: query"
  else .error "TypeError: search_database() got an unexpected keyword argument"

/-- The `available_functions` mapping from tool name to handler. -/
def available_functions : List (String × Handler) :=
  [("get_weather", weatherHandler),
   ("calculate", calculateHandler),
   ("get_stock_price", stockHandler),
   ("send_email", emailHandler),
   ("search_database", searchHandler)]

/-- Dictionary access `available_functions[name]` (absence is the fatal
`KeyError` path, surfaced by the dispatch loop). -/
def lookup_function (name : String) : Option Handler :=
  (available_functions.find? (fun p => p.1 == name)).map (fun p => p.2)

/-- A tool call's serialized arguments as seen after `json.loads`: either
the decoded keyword arguments, or `malformed` when deserialization raises. -/
inductive ArgsPayload where
  | ok (args : ToolArgs)
  | malformed

/-- The `function` part of a ToolCallRequest: tool name and arguments payload. -/
structure ToolCallFunction where
  name : String
  arguments : ArgsPayload

/-- A ToolCallRequest emitted by the remote model: call identifier plus
the named function and its arguments. -/
structure ToolCall where
  id : String
  function : ToolCallFunction

/-- The assistant message of one completion response: optional text
content and the (possibly empty) list of requested tool calls. -/
structure ChatMessage where
  content : Option String
  tool_calls : List ToolCall

/-- One message of the ConversationState. -/
inductive Message where
  | system (content : String)
  | user (content : String)
  | assistant (m : ChatMessage)
  | tool (tool_call_id : String) (name : String) (content : JValue)

/-- One completion request issued to the remote service: the conversation
submitted and whether the tool catalog was attached. -/
structure CompletionRequest where
  messages : List Message
  withTools : Bool

/-- The remote completion service, modelled as an oracle: any one concrete
run of the Python script corresponds to some such function. -/
structure CompletionService where
  complete : List Message → Bool → ChatMessage

/-- The fatal error paths of the dispatch loop: argument deserialization
raises, `available_functions[name]` raises `KeyError`, or the handler
invocation itself raises. -/
inductive RelayError where
  | malformedArguments (call_id : String)
  | unknownTool (fname : String)
  | handlerError (fname : String) (msg : String)

/-- State threaded through the dispatch loop: conversation so far, the
handler invocations performed, and the pending fatal error if one was
raised. -/
structure ExecState where
  messages : List Message
  invocations : List (String × ToolArgs)
  error : Option RelayError

/-- The observable trace of one `run_conversation` call: completion
requests issued, final conversation state, handler invocations, and the
outcome (the final answer's text, or the error that aborted the query). -/
structure RelayTrace where
  requests : List CompletionRequest
  messages : List Message
  invocations : List (String × ToolArgs)
  outcome : Except RelayError (Option String)

/-- The system prompt of `run_conversation`. -/
def system_prompt : String :=
  "You are a helpful assistant with access to various tools. Use them to answer user queries accurately."

/-- The initial ConversationState: system message then user message. -/
def initialMessages (user_query : String) : List Message :=
  [.system system_prompt, .user user_query]

/-- The dispatch loop body of `run_conversation` (`for tool_call in
tool_calls`): for each call in order, deserialize its arguments, look up
the named handler, invoke it, and append the serialized result to the
conversation tagged with the call's identifier; the first raised exception
aborts the loop with the error recorded. -/
def execToolCalls (table : String → Option Handler) :
    List ToolCall → ExecState → ExecState
  | [], st => st
  | tc :: rest, st =>
    match tc.function.arguments with
    | .malformed => { st with error := some (.malformedArguments tc.id) }
    | .ok args =>
      match table tc.function.name with
      | none => { st with error := some (.unknownTool tc.function.name) }
      | some hd =>
        let st' := { st with invocations := st.invocations ++ [(tc.function.name, args)] }
        match hd args with
        | .error m => { st' with error := some (.handlerError tc.function.name m) }
        | .ok v =>
          execToolCalls table rest
            { st' with messages := st'.messages ++ [.tool tc.id tc.function.name v] }

/-- The end-to-end effect of dispatching a single tool call: its result
value when deserialization, lookup and invocation all succeed, `none` on
any of the three fatal paths. -/
def callResult (table : String → Option Handler) (tc : ToolCall) : Option JValue :=
  match tc.function.arguments with
  | .malformed => none
  | .ok args =>
    match table tc.function.name with
    | none => none
    | some hd => (hd args).toOption

/-- The decoded arguments of a call (empty on the malformed path, where
they are never consulted). -/
def callArgs (tc : ToolCall) : ToolArgs :=
  match tc.function.arguments with
  | .ok args => args
  | .malformed => []

/-- The tool-result message a successfully dispatched call appends:
role "tool", tagged with the call's identifier. -/
def toolMessageOf (table : String → Option Handler) (tc : ToolCall) : Message :=
  .tool tc.id tc.function.name ((callResult table tc).getD (.obj []))

/-- After the dispatch loop: on a raised error the query aborts with no
further request; otherwise the second completion request is issued
(without the tool catalog) and its text content is the final answer. -/
def relayFinish (svc : CompletionService) (user_query : String)
    (st : ExecState) : RelayTrace :=
  match st.error with
  | some e =>
    { requests := [⟨initialMessages user_query, true⟩],
      messages := st.messages, invocations := st.invocations, outcome := .error e }
  | none =>
    { requests := [⟨initialMessages user_query, true⟩, ⟨st.messages, false⟩],
      messages := st.messages, invocations := st.invocations,
      outcome := .ok (svc.complete st.messages false).content }

/-- Embeds `run_conversation(user_query)` over an arbitrary handler table
(the source's loop reads the table only through `available_functions[name]`,
so its control flow is handler-agnostic): build the initial conversation,
issue the first completion request with the tool catalog, and either
return the response's text directly (no tool calls) or append the
assistant message, dispatch every call in order, and issue the second
completion request. -/
def runConversationWith (svc : CompletionService)
    (table : String → Option Handler) (user_query : String) : RelayTrace :=
  let messages := initialMessages user_query
  let response_message := svc.complete messages true
  let tool_calls := response_message.tool_calls
  if tool_calls.isEmpty then
    { requests := [⟨messages, true⟩], messages := messages,
      invocations := [], outcome := .ok response_message.content }
  else
    relayFinish svc user_query
      (execToolCalls table tool_calls ⟨messages ++ [.assistant response_message], [], none⟩)

/-- `run_conversation` proper: the relay instantiated with the module's
`available_functions` mapping. -/
def run_conversation (svc : CompletionService) (user_query : String) : RelayTrace :=
  runConversationWith svc lookup_function user_query

/-- The validated `PersonProfile` of `2_pydantic_ai_validation.py`
(the `name` field is stored stripped, as the field validator returns it). -/
structure PersonProfile where
  name : String
  age : Int
  occupation : String

/-- Python's `str.strip()`: drop whitespace from both ends. -/
def pyStrip (s : String) : String :=
  String.mk (((s.toList.dropWhile Char.isWhitespace).reverse.dropWhile
    Char.isWhitespace).reverse)

/-- Embeds `PersonProfile.model_validate` on a name/age/occupation record:
the `name` field validator rejects a blank name, and the `age` field
carries the constraints `ge=0, le=150`; violations are collected and
reported together, success returns the instance with the stripped name. -/
def validatePersonProfile (name : String) (age : Int) (occupation : String) :
    Except (List String) PersonProfile :=
  let nameErrors := if pyStrip name = "" then ["Name cannot be empty"] else []
  let ageErrors :=
    (if age < 0 then ["Input should be greater than or equal to 0"] else []) ++
    (if 150 < age then ["Input should be less than or equal to 150"] else [])
  match nameErrors ++ ageErrors with
  | [] => .ok ⟨pyStrip name, age, occupation⟩
  | es => .error es

/-- Embeds `example_with_validation_error`: it validates the hard-coded
invalid record `name="   ", age=200, occupation="Developer"` locally and
issues no completion request at all — the first component is the list of
completion requests the function performs, empty in the source. -/
def example_with_validation_error :
    List CompletionRequest × Except (List String) PersonProfile :=
  ([], validatePersonProfile "   " 200 "Developer")

/-- The location field of a handler record, as a string (used to separate
records that differ only in the echoed location). -/
def locationField (v : JValue) : String :=
  jstr ((jfield "location" v).getD (.str ""))

/-- Concrete fixture: a ToolCallRequest for the weather tool at Tokyo. -/
def weatherTokyoCall : ToolCall :=
  ⟨"call_1", ⟨"get_weather", .ok [("location", "Tokyo")]⟩⟩

/-- Concrete fixture: a service whose first response requests the Tokyo
weather call and whose second response is a plain text answer. -/
def svcWeather : CompletionService :=
  ⟨fun _ withTools =>
    if withTools then ⟨none, [weatherTokyoCall]⟩
    else ⟨some "It is rainy in Tokyo.", []⟩⟩

/-- Concrete fixture: a ToolCallRequest naming a tool absent from
`available_functions`. -/
def unknownCall : ToolCall := ⟨"call_u", ⟨"get_wether", .ok []⟩⟩

/-- Concrete fixture: a service that requests the unresolvable call. -/
def svcUnknown : CompletionService := ⟨fun _ _ => ⟨none, [unknownCall]⟩⟩

/-- Concrete fixture: a weather call carrying no arguments, so invoking
the handler raises (missing required keyword argument). -/
def brokenWeatherCall : ToolCall := ⟨"call_b", ⟨"get_weather", .ok []⟩⟩

/-- Concrete fixture: a service that requests the failing weather call. -/
def svcBroken : CompletionService :=
  ⟨fun _ withTools =>
    if withTools then ⟨none, [brokenWeatherCall]⟩
    else ⟨some "unreachable", []⟩⟩

/-- Concrete fixture: a stock-price ToolCallRequest for AAPL. -/
def aaplCall : ToolCall :=
  ⟨"call_a", ⟨"get_stock_price", .ok [("symbol", "AAPL")]⟩⟩

/-- Concrete fixture: a service that answers in text without tools. -/
def svcText : CompletionService := ⟨fun _ _ => ⟨some "Hi there", []⟩⟩

/-- Dispatching a block of calls that all succeed appends exactly their
tool-result messages, in order, and records exactly their invocations;
the loop then continues with the remaining calls. -/
theorem execToolCalls_ok_append (table : String → Option Handler)
    (pre rest : List ToolCall) (st : ExecState)
    (h : ∀ tc ∈ pre, (callResult table tc).isSome) :
    execToolCalls table (pre ++ rest) st =
      execToolCalls table rest
        { messages := st.messages ++ pre.map (toolMessageOf table),
          invocations := st.invocations ++ pre.map (fun tc => (tc.function.name, callArgs tc)),
          error := st.error } := by
  induction pre generalizing st with
  | nil => simp
  | cons tc pre ih =>
    have htc : (callResult table tc).isSome = true := h tc (List.mem_cons_self tc pre)
    cases harg : tc.function.arguments with
    | malformed => simp [callResult, harg] at htc
    | ok args =>
      cases htab : table tc.function.name with
      | none => simp [callResult, harg, htab] at htc
      | some hd =>
        cases hres : hd args with
        | error m => simp [callResult, harg, htab, hres, Except.toOption] at htc
        | ok v =>
          have hcr : callResult table tc = some v := by
            simp [callResult, harg, htab, hres, Except.toOption]
          have hmsg : toolMessageOf table tc = .tool tc.id tc.function.name v := by
            simp [toolMessageOf, hcr]
          have hargs : callArgs tc = args := by simp [callArgs, harg]
          simp only [List.cons_append, execToolCalls, harg, htab, hres, List.append_eq]
          rw [ih _ (fun c hc => h c (List.mem_cons_of_mem tc hc))]
          simp [hmsg, hargs, List.append_assoc]

/-- The dispatch loop only ever appends to the conversation: its input
message list is a prefix of its output message list. -/
theorem execToolCalls_messages_extend (table : String → Option Handler)
    (calls : List ToolCall) (st : ExecState) :
    st.messages <+: (execToolCalls table calls st).messages := by
  induction calls generalizing st with
  | nil => exact List.prefix_rfl
  | cons tc rest ih =>
    cases harg : tc.function.arguments with
    | malformed =>
      simp only [execToolCalls, harg]
      exact List.prefix_rfl
    | ok args =>
      cases htab : table tc.function.name with
      | none =>
        simp only [execToolCalls, harg, htab]
        exact List.prefix_rfl
      | some hd =>
        cases hres : hd args with
        | error m =>
          simp only [execToolCalls, harg, htab, hres]
          exact List.prefix_rfl
        | ok v =>
          simp only [execToolCalls, harg, htab, hres]
          refine List.IsPrefix.trans ?_ (ih _)
          exact List.prefix_append _ _

/-- If any call in the block fails to dispatch end to end, the loop stops
with a raised error recorded. -/
theorem execToolCalls_error_of_bad (table : String → Option Handler)
    (calls : List ToolCall) (st : ExecState)
    (h : ∃ tc ∈ calls, callResult table tc = none) :
    (execToolCalls table calls st).error.isSome := by
  induction calls generalizing st with
  | nil => simp at h
  | cons tc rest ih =>
    cases harg : tc.function.arguments with
    | malformed => simp [execToolCalls, harg]
    | ok args =>
      cases htab : table tc.function.name with
      | none => simp [execToolCalls, harg, htab]
      | some hd =>
        cases hres : hd args with
        | error m => simp [execToolCalls, harg, htab, hres]
        | ok v =>
          simp only [execToolCalls, harg, htab, hres]
          apply ih
          obtain ⟨tc', hmem, hnone⟩ := h
          rcases List.mem_cons.mp hmem with heq | hmem'
          · exfalso
            rw [heq] at hnone
            simp [callResult, harg, htab, hres, Except.toOption] at hnone
          · exact ⟨tc', hmem', hnone⟩

/-- After the loop, the conversation and invocation lists are passed
through unchanged. -/
theorem relayFinish_messages (svc : CompletionService) (q : String) (st : ExecState) :
    (relayFinish svc q st).messages = st.messages := by
  cases h : st.error <;> simp [relayFinish, h]

/-- A raised dispatch error aborts the query: the error is the outcome and
only the first completion request was ever issued. -/
theorem relayFinish_error (svc : CompletionService) (q : String) (st : ExecState)
    (e : RelayError) (h : st.error = some e) :
    relayFinish svc q st =
      { requests := [⟨initialMessages q, true⟩], messages := st.messages,
        invocations := st.invocations, outcome := .error e } := by
  simp [relayFinish, h]

/-- With no dispatch error, the second completion request is issued on the
final conversation and its text content is the outcome. -/
theorem relayFinish_ok (svc : CompletionService) (q : String) (st : ExecState)
    (h : st.error = none) :
    relayFinish svc q st =
      { requests := [⟨initialMessages q, true⟩, ⟨st.messages, false⟩],
        messages := st.messages, invocations := st.invocations,
        outcome := .ok (svc.complete st.messages false).content } := by
  simp [relayFinish, h]

/-- `relayFinish` issues at most one further request beyond the first. -/
theorem relayFinish_requests_le_two (svc : CompletionService) (q : String)
    (st : ExecState) : (relayFinish svc q st).requests.length ≤ 2 := by
  cases h : st.error <;> simp [relayFinish, h]

/-- Unfolding of the relay when the first response carries no tool calls. -/
theorem runConversationWith_noTools (svc : CompletionService)
    (table : String → Option Handler) (q : String)
    (h : (svc.complete (initialMessages q) true).tool_calls = []) :
    runConversationWith svc table q =
      { requests := [⟨initialMessages q, true⟩], messages := initialMessages q,
        invocations := [],
        outcome := .ok (svc.complete (initialMessages q) true).content } := by
  simp [runConversationWith, h]

/-- Unfolding of the relay when the first response carries tool calls:
append the assistant message, run the dispatch loop, finish. -/
theorem runConversationWith_tools (svc : CompletionService)
    (table : String → Option Handler) (q : String) (calls : List ToolCall)
    (h : (svc.complete (initialMessages q) true).tool_calls = calls)
    (hne : calls ≠ []) :
    runConversationWith svc table q =
      relayFinish svc q (execToolCalls table calls
        ⟨initialMessages q ++ [.assistant (svc.complete (initialMessages q) true)],
         [], none⟩) := by
  have hfalse : calls.isEmpty = false := by
    cases calls with
    | nil => exact absurd rfl hne
    | cons c cs => rfl
  simp [runConversationWith, h, hfalse]

/-- Claim C1: when the first completion response carries N >= 1
ToolCallRequests and each of them dispatches successfully,
`run_conversation` appends exactly N tool-result messages — one per
request, tagged with that request's call identifier, in the order the
requests were received — and the second (and final) completion request is
issued on exactly that extended conversation. -/
theorem tool_results_appended_in_order (svc : CompletionService) (q : String)
    (calls : List ToolCall)
    (hcalls : (svc.complete (initialMessages q) true).tool_calls = calls)
    (hne : calls ≠ [])
    (hok : ∀ tc ∈ calls, (callResult lookup_function tc).isSome) :
    (run_conversation svc q).requests =
      [⟨initialMessages q, true⟩,
       ⟨initialMessages q ++ [.assistant (svc.complete (initialMessages q) true)]
          ++ calls.map (toolMessageOf lookup_function), false⟩] ∧
    (run_conversation svc q).messages =
      initialMessages q ++ [.assistant (svc.complete (initialMessages q) true)]
        ++ calls.map (toolMessageOf lookup_function) := by
  show (runConversationWith svc lookup_function q).requests = _ ∧
    (runConversationWith svc lookup_function q).messages = _
  rw [runConversationWith_tools svc lookup_function q calls hcalls hne]
  have hexec := execToolCalls_ok_append lookup_function calls []
    ⟨initialMessages q ++ [.assistant (svc.complete (initialMessages q) true)],
     [], none⟩ hok
  simp only [List.append_nil] at hexec
  rw [hexec]
  rw [relayFinish_ok svc q _ rfl]
  simp [execToolCalls, List.append_assoc]

/-- Claim C2: when the first completion response carries zero
ToolCallRequests, `run_conversation` returns that response's text content
verbatim, issues no second completion request, and performs no handler
invocation. -/
theorem no_tool_calls_returns_verbatim (svc : CompletionService) (q : String)
    (h : (svc.complete (initialMessages q) true).tool_calls = []) :
    run_conversation svc q =
      { requests := [⟨initialMessages q, true⟩],
        messages := initialMessages q,
        invocations := [],
        outcome := .ok (svc.complete (initialMessages q) true).content } :=
  runConversationWith_noTools svc lookup_function q h

/-- Claim C3: a ToolCallRequest naming a tool that is absent from
`available_functions` makes `run_conversation` abort the query with an
error, and no second completion request is issued. -/
theorem unknown_tool_aborts_before_second_request (svc : CompletionService)
    (q : String) (tc : ToolCall)
    (hmem : tc ∈ (svc.complete (initialMessages q) true).tool_calls)
    (hmiss : lookup_function tc.function.name = none) :
    (∃ e, (run_conversation svc q).outcome = .error e) ∧
    (run_conversation svc q).requests = [⟨initialMessages q, true⟩] := by
  have hne : (svc.complete (initialMessages q) true).tool_calls ≠ [] :=
    List.ne_nil_of_mem hmem
  have hbad : callResult lookup_function tc = none := by
    cases harg : tc.function.arguments with
    | malformed => simp [callResult, harg]
    | ok args => simp [callResult, harg, hmiss]
  have herr := execToolCalls_error_of_bad lookup_function
    ((svc.complete (initialMessages q) true).tool_calls)
    ⟨initialMessages q ++ [.assistant (svc.complete (initialMessages q) true)],
     [], none⟩ ⟨tc, hmem, hbad⟩
  obtain ⟨e, he⟩ := Option.isSome_iff_exists.mp herr
  have hrun : run_conversation svc q =
      relayFinish svc q (execToolCalls lookup_function
        ((svc.complete (initialMessages q) true).tool_calls)
        ⟨initialMessages q ++ [.assistant (svc.complete (initialMessages q) true)],
         [], none⟩) :=
    runConversationWith_tools svc lookup_function q _ rfl hne
  rw [hrun, relayFinish_error svc q _ e he]
  exact ⟨⟨e, rfl⟩, rfl⟩

/-- Claim C4: for every query and every behavior of the remote service,
`run_conversation` issues at most two completion requests — in particular
never a third, whatever the second response contains (the relay never
inspects the second response's tool calls). -/
theorem at_most_two_completion_requests (svc : CompletionService) (q : String) :
    (run_conversation svc q).requests.length ≤ 2 := by
  show (runConversationWith svc lookup_function q).requests.length ≤ 2
  cases h : (svc.complete (initialMessages q) true).tool_calls with
  | nil =>
    rw [runConversationWith_noTools svc lookup_function q h]
    simp
  | cons c cs =>
    rw [runConversationWith_tools svc lookup_function q (c :: cs) h
      (List.cons_ne_nil _ _)]
    exact relayFinish_requests_le_two svc q _

/-- Claim C5: when a dispatched handler fails internally (its invocation
raises), the failure propagates as the failed outcome of the whole query:
the relay catches nothing, appends no tool-result for the failing call,
and issues no second completion request — even though the handler was
invoked (it appears in the invocation trace).  Stated over an arbitrary
handler table, since the loop body reads the table only through the
`available_functions[name]` lookup. -/
theorem handler_failure_propagates (svc : CompletionService)
    (table : String → Option Handler) (q : String)
    (pre post : List ToolCall) (tc : ToolCall) (args : ToolArgs)
    (hd : Handler) (m : String)
    (hcalls : (svc.complete (initialMessages q) true).tool_calls = pre ++ tc :: post)
    (hpre : ∀ c ∈ pre, (callResult table c).isSome)
    (harg : tc.function.arguments = .ok args)
    (htab : table tc.function.name = some hd)
    (hres : hd args = .error m) :
    (runConversationWith svc table q).outcome =
      .error (.handlerError tc.function.name m) ∧
    (runConversationWith svc table q).requests = [⟨initialMessages q, true⟩] ∧
    (runConversationWith svc table q).messages =
      initialMessages q ++ [.assistant (svc.complete (initialMessages q) true)]
        ++ pre.map (toolMessageOf table) ∧
    (runConversationWith svc table q).invocations =
      pre.map (fun c => (c.function.name, callArgs c)) ++ [(tc.function.name, args)] := by
  have hne : pre ++ tc :: post ≠ [] := by simp
  rw [runConversationWith_tools svc table q (pre ++ tc :: post) hcalls hne]
  have hexec := execToolCalls_ok_append table pre (tc :: post)
    ⟨initialMessages q ++ [.assistant (svc.complete (initialMessages q) true)],
     [], none⟩ hpre
  rw [hexec]
  have hstep : execToolCalls table (tc :: post)
      { messages := (initialMessages q ++
          [.assistant (svc.complete (initialMessages q) true)])
          ++ pre.map (toolMessageOf table),
        invocations := [] ++ pre.map (fun c => (c.function.name, callArgs c)),
        error := none } =
      { messages := (initialMessages q ++
          [.assistant (svc.complete (initialMessages q) true)])
          ++ pre.map (toolMessageOf table),
        invocations := ([] ++ pre.map (fun c => (c.function.name, callArgs c)))
          ++ [(tc.function.name, args)],
        error := some (.handlerError tc.function.name m) } := by
    simp [execToolCalls, harg, htab, hres]
  rw [hstep, relayFinish_error svc q _ _ rfl]
  refine ⟨rfl, rfl, ?_, ?_⟩ <;> simp [List.append_assoc]

/-- Witness for C1 at a concrete run: a single weather ToolCallRequest for
Tokyo produces exactly one tool-result message, tagged with its call
identifier, and the second request carries it. -/
theorem tool_results_appended_in_order_witness :
    (run_conversation svcWeather "What is the weather in Tokyo?").requests =
      [⟨initialMessages "What is the weather in Tokyo?", true⟩,
       ⟨initialMessages "What is the weather in Tokyo?" ++
          [.assistant (svcWeather.complete
            (initialMessages "What is the weather in Tokyo?") true)] ++
          [weatherTokyoCall].map (toolMessageOf lookup_function), false⟩] ∧
    (run_conversation svcWeather "What is the weather in Tokyo?").messages =
      initialMessages "What is the weather in Tokyo?" ++
        [.assistant (svcWeather.complete
          (initialMessages "What is the weather in Tokyo?") true)] ++
        [weatherTokyoCall].map (toolMessageOf lookup_function) :=
  tool_results_appended_in_order svcWeather "What is the weather in Tokyo?"
    [weatherTokyoCall] rfl (List.cons_ne_nil _ _) (by decide)

/-- Witness for C2 at a concrete run: a text-only first response is
returned verbatim with one request issued and no invocation. -/
theorem no_tool_calls_returns_verbatim_witness :
    run_conversation svcText "hello" =
      { requests := [⟨initialMessages "hello", true⟩],
        messages := initialMessages "hello",
        invocations := [], outcome := .ok (some "Hi there") } :=
  no_tool_calls_returns_verbatim svcText "hello" rfl

/-- Witness for C3 at a concrete run: requesting the misspelled tool name
aborts the query after the single first request. -/
theorem unknown_tool_aborts_before_second_request_witness :
    (∃ e, (run_conversation svcUnknown "question").outcome = .error e) ∧
    (run_conversation svcUnknown "question").requests =
      [⟨initialMessages "question", true⟩] :=
  unknown_tool_aborts_before_second_request svcUnknown "question" unknownCall
    (List.mem_singleton_self _) rfl

/-- Witness for C5 at a concrete run: a weather call with no arguments is
invoked, raises, and the raised error is the outcome of the query with no
tool-result appended and no second request. -/
theorem handler_failure_propagates_witness :
    (runConversationWith svcBroken lookup_function "weather please").outcome =
      .error (.handlerError "get_weather"
        "TypeError: get_weather() missing required argument: location") ∧
    (runConversationWith svcBroken lookup_function "weather please").requests =
      [⟨initialMessages "weather please", true⟩] ∧
    (runConversationWith svcBroken lookup_function "weather please").messages =
      initialMessages "weather please" ++
        [.assistant (svcBroken.complete (initialMessages "weather please") true)] ++
        ([] : List ToolCall).map (toolMessageOf lookup_function) ∧
    (runConversationWith svcBroken lookup_function "weather please").invocations =
      ([] : List ToolCall).map (fun c => (c.function.name, callArgs c)) ++
        [("get_weather", [])] :=
  handler_failure_propagates svcBroken lookup_function "weather please"
    [] [] brokenWeatherCall [] weatherHandler
    "TypeError: get_weather() missing required argument: location"
    rfl (by simp) rfl rfl rfl

/-- Claim C6: dispatching the same non-email tool call twice with the same
arguments appends the same result value both times — the handlers are pure
functions of their arguments with no hidden state between invocations, so
the second invocation returns exactly the first's result. -/
theorem non_email_handlers_idempotent (table : String → Option Handler)
    (tc : ToolCall) (st : ExecState) (v : JValue)
    (_hne : tc.function.name ≠ "send_email")
    (hok : callResult table tc = some v) :
    (execToolCalls table [tc, tc] st).messages =
      st.messages ++ [.tool tc.id tc.function.name v,
                      .tool tc.id tc.function.name v] ∧
    (execToolCalls table [tc, tc] st).error = st.error := by
  have hall : ∀ c ∈ [tc, tc], (callResult table c).isSome := by
    intro c hc
    have hc' : c = tc := by
      rcases List.mem_cons.mp hc with h1 | h2
      · exact h1
      · simpa using h2
    rw [hc', hok]; rfl
  have h := execToolCalls_ok_append table [tc, tc] [] st hall
  simp only [List.append_nil] at h
  rw [h]
  constructor
  · simp [execToolCalls, toolMessageOf, hok]
  · simp [execToolCalls]

/-- Witness for C6 at the claim's own example: the AAPL stock lookup,
dispatched twice, appends the same stock record twice. -/
theorem non_email_handlers_idempotent_witness :
    (execToolCalls lookup_function [aaplCall, aaplCall] ⟨[], [], none⟩).messages =
      [] ++ [.tool "call_a" "get_stock_price" (get_stock_price "AAPL"),
             .tool "call_a" "get_stock_price" (get_stock_price "AAPL")] ∧
    (execToolCalls lookup_function [aaplCall, aaplCall] ⟨[], [], none⟩).error = none :=
  non_email_handlers_idempotent lookup_function aaplCall ⟨[], [], none⟩
    (get_stock_price "AAPL") (by decide) rfl

/-- Claim C7: validating a person profile whose age is 200 against the
PersonProfile model fails locally whatever the other fields are, and
`example_with_validation_error` — which feeds in exactly such a record —
issues no completion request at all. -/
theorem age_200_fails_validation_locally :
    (∀ name occupation : String, ∃ es,
        validatePersonProfile name 200 occupation = .error es ∧
        "Input should be less than or equal to 150" ∈ es) ∧
    example_with_validation_error.1 = [] ∧
    example_with_validation_error.2 =
      .error ["Name cannot be empty", "Input should be less than or equal to 150"] := by
  refine ⟨fun name occupation => ?_, rfl, rfl⟩
  by_cases hn : pyStrip name = ""
  · exact ⟨["Name cannot be empty", "Input should be less than or equal to 150"],
      by norm_num [validatePersonProfile, hn], by simp⟩
  · exact ⟨["Input should be less than or equal to 150"],
      by norm_num [validatePersonProfile, hn], by simp⟩

/-- Claim C8: the ConversationState is mutated only by appending — the
dispatch loop's input conversation is a prefix of its output conversation,
and the initial system/user conversation is a prefix of the final
conversation of every `run_conversation` run. -/
theorem conversation_state_append_only :
    (∀ (table : String → Option Handler) (calls : List ToolCall) (st : ExecState),
        st.messages <+: (execToolCalls table calls st).messages) ∧
    (∀ (svc : CompletionService) (q : String),
        initialMessages q <+: (run_conversation svc q).messages) := by
  refine ⟨execToolCalls_messages_extend, fun svc q => ?_⟩
  show initialMessages q <+: (runConversationWith svc lookup_function q).messages
  cases h : (svc.complete (initialMessages q) true).tool_calls with
  | nil =>
    rw [runConversationWith_noTools svc lookup_function q h]
  | cons c cs =>
    rw [runConversationWith_tools svc lookup_function q (c :: cs) h
      (List.cons_ne_nil _ _)]
    rw [relayFinish_messages]
    exact List.IsPrefix.trans (List.prefix_append _ _)
      (execToolCalls_messages_extend lookup_function (c :: cs)
        ⟨initialMessages q ++ [.assistant (svc.complete (initialMessages q) true)],
         [], none⟩)

/-- Claim C9: `calculate` is total and never raises — any expression with
a character outside the allow-list yields the invalid-characters error
record without the expression being evaluated, and any exception raised
while evaluating an allowed expression is caught and returned as an error
record carrying the exception's message. -/
theorem calculate_never_raises :
    (∀ s : String, s.toList.all (fun c => allowed_chars.contains c) = false →
        calculate s = .obj [("error", .str "Invalid characters in expression")]) ∧
    (∀ s e : String, s.toList.all (fun c => allowed_chars.contains c) = true →
        pyEval s = .error e → calculate s = .obj [("error", .str e)]) := by
  constructor
  · intro s h
    simp only [calculate, h]
    simp
  · intro s e hall herr
    simp only [calculate, hall, herr]
    simp

/-- Witness for C9: a disallowed character is rejected without evaluation,
and division by zero is caught and reported as an error record. -/
theorem calculate_never_raises_witness :
    calculate "2+2a" = .obj [("error", .str "Invalid characters in expression")] ∧
    calculate "1/0" = .obj [("error", .str "division by zero")] :=
  ⟨calculate_never_raises.1 "2+2a" (by decide),
   calculate_never_raises.2 "1/0" "division by zero" (by decide) rfl⟩

/-- Counterexample for C10 as stated: the record returned by `get_weather`
is not determined only by the lowercase of the location — "Tokyo" and
"TOKYO" have the same lowercase, yet the returned records differ, because
the `location` field echoes the argument verbatim. -/
theorem weather_record_not_determined_by_lowercase :
    pyLower "Tokyo" = pyLower "TOKYO" ∧
    get_weather "Tokyo" "celsius" ≠ get_weather "TOKYO" "celsius" :=
  ⟨rfl, fun h => absurd (congrArg locationField h) (by decide)⟩

/-- The temperature field of a weather record depends only on the
lowercased location. -/
theorem jfield_get_weather_temperature (l u : String) :
    jfield "temperature" (get_weather l u) =
      some (.num (weatherLookup (pyLower l)).temp) := rfl

/-- The condition field of a weather record depends only on the lowercased
location. -/
theorem jfield_get_weather_condition (l u : String) :
    jfield "condition" (get_weather l u) =
      some (.str (weatherLookup (pyLower l)).condition) := rfl

/-- The humidity field of a weather record depends only on the lowercased
location. -/
theorem jfield_get_weather_humidity (l u : String) :
    jfield "humidity" (get_weather l u) =
      some (.num (weatherLookup (pyLower l)).humidity) := rfl

/-- Claim C10 (amended): both lookup handlers are total with
case-insensitive table lookup: the weather data fields (temperature,
condition, humidity) are determined only by the lowercase of the location,
with defaults 20 / "Unknown" / 50 on a table miss, while the location and
unit fields echo the arguments verbatim; the stock record is determined
entirely by the uppercase of the symbol, with defaults price 0, change 0,
change_percent 0 on a table miss. -/
theorem lookup_handlers_case_insensitive_total :
    (∀ l1 l2 u : String, pyLower l1 = pyLower l2 →
        jfield "temperature" (get_weather l1 u) = jfield "temperature" (get_weather l2 u) ∧
        jfield "condition" (get_weather l1 u) = jfield "condition" (get_weather l2 u) ∧
        jfield "humidity" (get_weather l1 u) = jfield "humidity" (get_weather l2 u)) ∧
    (∀ loc u : String,
        weather_data.find? (fun p => p.1 == pyLower loc) = none →
        jfield "temperature" (get_weather loc u) = some (.num 20) ∧
        jfield "condition" (get_weather loc u) = some (.str "Unknown") ∧
        jfield "humidity" (get_weather loc u) = some (.num 50)) ∧
    (∀ l u : String,
        jfield "location" (get_weather l u) = some (.str l) ∧
        jfield "unit" (get_weather l u) = some (.str u)) ∧
    (∀ s1 s2 : String, pyUpper s1 = pyUpper s2 →
        get_stock_price s1 = get_stock_price s2) ∧
    (∀ s : String, stock_data.find? (fun p => p.1 == pyUpper s) = none →
        get_stock_price s =
          .obj [("symbol", .str (pyUpper s)), ("price", .num 0),
                ("change", .num 0), ("change_percent", .num 0)]) := by
  refine ⟨?_, ?_, fun l u => ⟨rfl, rfl⟩, ?_, ?_⟩
  · intro l1 l2 u h
    rw [jfield_get_weather_temperature, jfield_get_weather_temperature,
      jfield_get_weather_condition, jfield_get_weather_condition,
      jfield_get_weather_humidity, jfield_get_weather_humidity, h]
    exact ⟨rfl, rfl, rfl⟩
  · intro loc u h
    have hlk : weatherLookup (pyLower loc) = ⟨20, "Unknown", 50⟩ := by
      simp [weatherLookup, h]
    rw [jfield_get_weather_temperature, jfield_get_weather_condition,
      jfield_get_weather_humidity, hlk]
    exact ⟨rfl, rfl, rfl⟩
  · intro s1 s2 h
    exact congrArg stockRecord h
  · intro s h
    have hlk : stockLookup (pyUpper s) = ⟨0, 0, 0⟩ := by
      simp [stockLookup, h]
    show stockRecord (pyUpper s) = _
    rw [stockRecord, hlk]

/-- Witness for the amended C10: mixed-case Tokyo agrees with lowercase
Tokyo on the data fields, an unknown location gets the default row, mixed-
case AAPL gives the same record as uppercase, and an unknown symbol gets
the zero record. -/
theorem lookup_handlers_case_insensitive_total_witness :
    (jfield "temperature" (get_weather "Tokyo" "celsius") =
       jfield "temperature" (get_weather "tOkYo" "celsius") ∧
     jfield "condition" (get_weather "Tokyo" "celsius") =
       jfield "condition" (get_weather "tOkYo" "celsius") ∧
     jfield "humidity" (get_weather "Tokyo" "celsius") =
       jfield "humidity" (get_weather "tOkYo" "celsius")) ∧
    (jfield "temperature" (get_weather "Atlantis" "celsius") = some (.num 20) ∧
     jfield "condition" (get_weather "Atlantis" "celsius") = some (.str "Unknown") ∧
     jfield "humidity" (get_weather "Atlantis" "celsius") = some (.num 50)) ∧
    get_stock_price "aapl" = get_stock_price "AAPL" ∧
    get_stock_price "zzz" =
      .obj [("symbol", .str "ZZZ"), ("price", .num 0),
            ("change", .num 0), ("change_percent", .num 0)] :=
  ⟨lookup_handlers_case_insensitive_total.1 "Tokyo" "tOkYo" "celsius" rfl,
   lookup_handlers_case_insensitive_total.2.1 "Atlantis" "celsius" rfl,
   lookup_handlers_case_insensitive_total.2.2.2.1 "aapl" "AAPL" rfl,
   lookup_handlers_case_insensitive_total.2.2.2.2 "zzz" rfl⟩

end Agents
